import Mathlib

/-!
Shallow embedding of `src/torch_helper.py` (mgo-aac).

The file models the three components of the helper layer:
* `convert` / `to_torch` — tensor coercion (`to_torch` in the source, whose
  inner closure is `convert`);
* `torch_wrap` — the annotated call adapter produced by the `torch_func`
  decorator;
* `grad` / `nth_grad` — gradient extraction over an abstract autograd
  primitive.

Python values are modelled by `Value` (a tensor, a numeric scalar that
`torch.tensor` accepts, or a string that `torch.tensor` rejects with a
`TypeError`).  A tensor carries an abstract numeric payload, a dtype and the
gradient-tracking flag `requiresGrad`; `detach` clears that flag.  Python
exceptions are modelled by `Except PyError`; the warnings and the diagnostic
`print` of the adapter are collected in a `List Effect` returned alongside
the result.  Python dicts are modelled by association lists with
insert-overwrites semantics (`dictInsert` / `dictMerge` / `dictLookup`),
matching the build of `all_kwargs = \x7b**default_kwargs, **args_with_keys,
**kwargs\x7d` in the source.
-/

/-- Numeric representation of a tensor (`torch.FloatTensor` etc.). -/
inductive Dtype
  | FloatTensor
  | DoubleTensor
  | ComplexFloatTensor
  deriving DecidableEq, Repr

/-- A torch tensor: abstract numeric payload, dtype, gradient-tracking flag. -/
structure Tensor where
  data : Int
  dtype : Dtype
  requiresGrad : Bool
  deriving DecidableEq, Repr

/-- A Python value as seen by the helper: an existing tensor, a numeric
scalar (accepted by `torch.tensor`), or a string (rejected by
`torch.tensor` with a `TypeError`). -/
inductive Value
  | tensor (t : Tensor)
  | num (n : Int)
  | str (s : String)
  deriving DecidableEq, Repr

/-- Python exceptions that the modelled code can raise. -/
inductive PyError
  | assertionError (msg : String)
  | nameError
  | keyError
  | typeError
  deriving DecidableEq, Repr

/-- `torch.tensor(var)`: constructs a fresh tensor from a non-tensor value;
raises `TypeError` on a string. -/
def torchTensor : Value → Except PyError Tensor
  | .tensor t => .ok t
  | .num n => .ok { data := n, dtype := .FloatTensor, requiresGrad := false }
  | .str _ => .error .typeError

/-- The inner closure `convert` of `to_torch` (src/torch_helper.py:46-55):
an existing tensor is only re-cast to `dtype`; a non-tensor value is built
fresh via `torch.tensor(var).type(dtype).requires_grad_(requires_grad)`;
if `detach` is set the result is detached (tracking flag cleared). -/
def convert (dtype : Dtype) (requires_grad detach : Bool) (var : Value) :
    Except PyError Tensor := do
  let T ← match var with
    | .tensor t => pure { t with dtype := dtype }
    | v => do
        let t ← torchTensor v
        pure { t with dtype := dtype, requiresGrad := requires_grad }
  if detach then
    return { T with requiresGrad := false }
  else
    return T

/-- `to_torch` on a single value (src/torch_helper.py:45-58, the
`len(vars) == 1` branch, which is the one the adapter uses). -/
def to_torch (var : Value) (dtype : Dtype := .FloatTensor)
    (requires_grad : Bool := false) (detach : Bool := false) :
    Except PyError Tensor :=
  convert dtype requires_grad detach var

/-- `to_torch` on several values (src/torch_helper.py:59-60): the lazy
generator is modelled as the list of the per-value conversion results. -/
def to_torchMany (vars : List Value) (dtype : Dtype := .FloatTensor)
    (requires_grad : Bool := false) (detach : Bool := false) :
    List (Except PyError Tensor) :=
  vars.map (convert dtype requires_grad detach)

-- Equality of `Except` results is decidable (used by concrete witnesses).
deriving instance DecidableEq for Except

example : to_torch (.num 3) = .ok { data := 3, dtype := .FloatTensor, requiresGrad := false } := by
  decide

/-! ### Python dictionaries

Association lists with insert-overwrites semantics: an insert of an existing
key updates the value in place, a new key is appended.  `dictMerge d e`
models adding the entries of `e` to a copy of `d`, so that
`dictMerge (dictMerge d1 d2) d3` is the source expression
`\x7b**d1, **d2, **d3\x7d`. -/

/-- An entry of a Python dict with string keys. -/
abbrev Dict := List (String × Value)

/-- `d[k] = v` on a Python dict: overwrite in place, or append a new key. -/
def dictInsert (d : Dict) (k : String) (v : Value) : Dict :=
  if d.any (fun p => p.1 = k) then
    d.map (fun p => if p.1 = k then (k, v) else p)
  else
    d ++ [(k, v)]

/-- Add all entries of `e` (in order) to a copy of `d`. -/
def dictMerge (d e : Dict) : Dict :=
  e.foldl (fun acc kv => dictInsert acc kv.1 kv.2) d

/-- `d.get(k)`: the value stored at key `k`, if any. -/
def dictLookup (d : Dict) (k : String) : Option Value :=
  (d.find? (fun p => p.1 = k)).map (fun p => p.2)

/-! ### Annotations and adapted functions -/

/-- One element of an annotation tuple: a literal string tag such as
`tensor`, `any`, `detach`, `requires_grad`, or a dict
`\x7b dtype: <representation> \x7d` selecting the target dtype. -/
inductive Tag
  | str (s : String)
  | dtypeDict (d : Dtype)
  deriving DecidableEq, Repr

/-- A parameter annotation: the tuple of tags attached to the parameter. -/
abbrev Annotation := List Tag

/-- `s in annotation` for a string `s` (a dict element never equals a
string, so only `Tag.str` entries can match). -/
def hasTag (ann : Annotation) (s : String) : Bool :=
  ann.contains (Tag.str s)

/-- `[a[dtype] for a in annotation if type(a) is dict and dtype in a.keys()]`
followed by taking the first element, defaulting to `torch.FloatTensor`
(src/torch_helper.py:73-77). -/
def annDtype (ann : Annotation) : Dtype :=
  (ann.filterMap (fun t => match t with
    | .dtypeDict d => some d
    | _ => none)).headD .FloatTensor

/-- A Python function as the decorator sees it: the declared parameters with
their optional defaults (`inspect.signature(func).parameters`, in
declaration order), the annotation dict (`func.__annotations__`, in its own
key order), and the function body.  The body receives the bound arguments
as a lookup map and may raise. -/
structure Func where
  params : List (String × Option Value)
  annotations : List (String × Annotation)
  body : (String → Option Value) → Except PyError Value

/-- Python's comparison of `dict_keys` objects: equality as sets. -/
def sameKeySet (l1 l2 : List String) : Bool :=
  l1.all (fun k => l2.contains k) && l2.all (fun k => l1.contains k)

/-! ### Python call semantics

`pyBind` models binding `func(*args, **kwargs)` against the declared
parameters: positional arguments fill parameters in declaration order;
an unknown keyword, a keyword for a positionally-filled parameter, too many
positional arguments, or a missing required parameter raise `TypeError`. -/

/-- Bind each declared parameter, in order, to its positional argument, its
keyword argument, or its default. -/
def pyBindEach (kwargs : Dict) : List (String × Option Value) → List Value →
    Except PyError Dict
  | [], _ => .ok []
  | (n, d) :: ps, [] =>
    match dictLookup kwargs n with
    | some v => do
        let rest ← pyBindEach kwargs ps []
        pure ((n, v) :: rest)
    | none =>
      match d with
      | some v => do
          let rest ← pyBindEach kwargs ps []
          pure ((n, v) :: rest)
      | none => .error .typeError
  | (n, _) :: ps, a :: as => do
      let rest ← pyBindEach kwargs ps as
      pure ((n, a) :: rest)

/-- Bind a Python call `func(*args, **kwargs)` to a dict of arguments. -/
def pyBind (params : List (String × Option Value)) (args : List Value)
    (kwargs : Dict) : Except PyError Dict :=
  if args.length > params.length then .error .typeError
  else if kwargs.any (fun kv => (params.find? (fun p => p.1 = kv.1)).isNone) then
    .error .typeError
  else if kwargs.any
      (fun kv => ((params.map (fun p => p.1)).take args.length).contains kv.1) then
    .error .typeError
  else
    pyBindEach kwargs params args

/-- Invoke a function the way Python does: bind, then run the body. -/
def pyCall (f : Func) (args : List Value) (kwargs : Dict) :
    Except PyError Value := do
  let bound ← pyBind f.params args kwargs
  f.body (dictLookup bound)

/-! ### The annotated call adapter `torch_wrap` -/

/-- Observable side effects of the adapter: the two `warn` calls and the
diagnostic `print(all_kwargs)` (src/torch_helper.py:84,88,89). -/
inductive Effect
  | warnUnsupported (ann : Annotation)
  | warnParsingFailed
  | printDict (d : Dict)
  deriving DecidableEq, Repr

/-- `default_kwargs` (src/torch_helper.py:68): the declared defaults. -/
def defaultKwargs (f : Func) : Dict :=
  f.params.filterMap (fun p => p.2.map (fun v => (p.1, v)))

/-- `args_with_keys` (src/torch_helper.py:66-67): positional arguments
zipped with the first `len(args)` annotation keys. -/
def argsWithKeys (f : Func) (args : List Value) : Dict :=
  ((f.annotations.map (fun p => p.1)).take args.length).zip args

/-- `all_kwargs = \x7b**default_kwargs, **args_with_keys, **kwargs\x7d`
(src/torch_helper.py:69). -/
def allKwargs (f : Func) (args : List Value) (kwargs : Dict) : Dict :=
  dictMerge (dictMerge (dictMerge [] (defaultKwargs f)) (argsWithKeys f args)) kwargs

/-- The coercion loop (src/torch_helper.py:71-85).  The state carries the
loop variable `v` (`none` while still unassigned) and the accumulated
`torch_kwargs`; the returned effects are the warnings emitted inside the
`try` block.  A `tensor` or `any` tag reads `all_kwargs[var_name]`
(`KeyError` if absent) and, for `tensor`, converts it; an unsupported
annotation only warns, after which `torch_kwargs[var_name] = v` reuses the
previous iteration's `v` — or raises `NameError` when no iteration has
assigned `v` yet. -/
def coerceLoop (allkw : Dict) :
    List (String × Annotation) → Option Value → Dict →
    Except PyError Dict × List Effect
  | [], _, acc => (.ok acc, [])
  | (name, ann) :: rest, v?, acc =>
    if hasTag ann "tensor" then
      match dictLookup allkw name with
      | none => (.error .keyError, [])
      | some bound =>
        match to_torch bound (annDtype ann) (hasTag ann "requires_grad")
            (hasTag ann "detach") with
        | .error e => (.error e, [])
        | .ok t =>
          coerceLoop allkw rest (some (.tensor t)) (dictInsert acc name (.tensor t))
    else if hasTag ann "any" then
      match dictLookup allkw name with
      | none => (.error .keyError, [])
      | some bound => coerceLoop allkw rest (some bound) (dictInsert acc name bound)
    else
      match v? with
      | none => (.error .nameError, [.warnUnsupported ann])
      | some v =>
        let r := coerceLoop allkw rest (some v) (dictInsert acc name v)
        (r.1, .warnUnsupported ann :: r.2)

/-- The `try` block of the adapter (src/torch_helper.py:70-86): build
`torch_kwargs` and invoke `func(**torch_kwargs)`. -/
def coerceAttempt (f : Func) (allkw : Dict) : Except PyError Value × List Effect :=
  match coerceLoop allkw f.annotations none [] with
  | (.ok torch_kwargs, effs) => (pyCall f [] torch_kwargs, effs)
  | (.error e, effs) => (.error e, effs)

/-- Message of the assertion at src/torch_helper.py:65. -/
def allAnnotatedMsg : String :=
  "Error: All parameters of a torch function should be annotated."

/-- The adapted function `torch_wrap` produced by the decorator `torch_func`
(src/torch_helper.py:62-92).  First the assertion that the declared
parameter names equal the annotation keys as sets (outside the `try`, so an
`AssertionError` propagates); then the `try` block; on any exception there,
the `except` clause warns, prints `all_kwargs`, and re-invokes the original
function with the original arguments. -/
def torch_wrap (f : Func) (args : List Value) (kwargs : Dict) :
    Except PyError Value × List Effect :=
  if sameKeySet (f.params.map (fun p => p.1)) (f.annotations.map (fun p => p.1)) then
    let allkw := allKwargs f args kwargs
    match coerceAttempt f allkw with
    | (.ok r, effs) => (.ok r, effs)
    | (.error _, effs) =>
      (pyCall f args kwargs, effs ++ [.warnParsingFailed, .printDict allkw])
  else
    (.error (.assertionError allAnnotatedMsg), [])

/-! ### Gradient extraction `grad` / `nth_grad`

The external differentiation engine is abstracted as `AutogradPrim`: its
field `agrad output input seed create_graph` models
`torch.autograd.grad(output, input, grad_outputs=seed,
create_graph=create_graph)[0]`, the first element of the returned tuple.
A scalar tensor is modelled by `GTensor` with a complex payload and the
`torch.is_complex` flag. -/

/-- A scalar tensor for the gradient helpers: complex payload `re + im*i`
and the dtype-is-complex flag tested by `torch.is_complex`. -/
structure GTensor where
  re : Int
  im : Int
  isComplex : Bool
  deriving DecidableEq, Repr

/-- Complex conjugation, `t.conj()`. -/
def GTensor.conj (t : GTensor) : GTensor :=
  { t with im := -t.im }

/-- The fixed gradient-output seed `torch.tensor([1.0+0j])`
(src/torch_helper.py:103). -/
def complexSeed : GTensor :=
  { re := 1, im := 0, isComplex := true }

/-- The external differentiation primitive: `agrad output input seed
create_graph` is the first element of the tuple returned by
`torch.autograd.grad`; `seed = none` means no `grad_outputs` override. -/
structure AutogradPrim where
  agrad : GTensor → GTensor → Option GTensor → Bool → GTensor

/-- Message of the assertion at src/torch_helper.py:101. -/
def gradComplexMsg : String :=
  "input x must also be complex, if f is complex for automatic differentiation"

/-- `grad(f, x, create_graph=True)` (src/torch_helper.py:94-106): for a
complex `f` the input must be complex (assertion), the primitive is seeded
with `1+0i` and the result conjugated; for a real `f` the primitive is
invoked directly. -/
def grad (P : AutogradPrim) (f x : GTensor) (create_graph : Bool := true) :
    Except PyError GTensor :=
  if f.isComplex then
    if x.isComplex then
      .ok ((P.agrad f x (some complexSeed) create_graph)).conj
    else
      .error (.assertionError gradComplexMsg)
  else
    .ok (P.agrad f x none create_graph)

/-- `nth_grad(f, x, n)` (src/torch_helper.py:115-119): `out = f`, then `n`
times `out = grad(out, x)`; an exception raised by `grad` propagates, which
the `Except` bind models. -/
def nth_grad (P : AutogradPrim) (f x : GTensor) : Nat → Except PyError GTensor
  | 0 => .ok f
  | n + 1 => (nth_grad P f x n).bind (fun out => grad P out x true)

/-! ### Concrete instances used in sanity checks and witnesses -/

/-- The `flip` example of the module docstring (src/torch_helper.py:11-16):
`flip(a: (tensor), sign: (any) = positive)` returns `a` or `-a`. -/
def flipFunc : Func where
  params := [("a", none), ("sign", some (.str "positive"))]
  annotations := [("a", [.str "tensor"]), ("sign", [.str "any"])]
  body := fun lookup =>
    match lookup "a", lookup "sign" with
    | some (.tensor t), some (.str "positive") => .ok (.tensor t)
    | some (.tensor t), some _ => .ok (.tensor { t with data := -t.data })
    | _, _ => .error .typeError

example :
    torch_wrap flipFunc [.num 2] [("sign", .str "negative")] =
      (.ok (.tensor { data := -2, dtype := .FloatTensor, requiresGrad := false }), []) := by
  decide

example :
    torch_wrap flipFunc [] [("a", .num 3)] =
      (.ok (.tensor { data := 3, dtype := .FloatTensor, requiresGrad := false }), []) := by
  decide

/-- A malformed call: `torch.tensor` rejects the string, the adapter falls
back to the raw call, which also fails on a string argument. -/
example :
    torch_wrap flipFunc [.str "oops"] [] =
      (.error .typeError,
        [.warnParsingFailed,
         .printDict [("sign", .str "positive"), ("a", .str "oops")]]) := by
  decide

/-- A concrete differentiation primitive used by witnesses: it records in
the result how it was invoked (payload combines output, input and seed). -/
def probePrim : AutogradPrim where
  agrad := fun f x s cg =>
    match s with
    | some t =>
      { re := f.re + 10 * x.re + 100 * t.re, im := f.im + 10 * x.im + 100 * t.im,
        isComplex := true }
    | none =>
      { re := f.re * x.re + (if cg then 1 else 0), im := 0, isComplex := false }

/-! ### Lookup lemmas for the Python-dict model -/

lemma dictLookup_cons (p : String × Value) (d : Dict) (k : String) :
    dictLookup (p :: d) k = if p.1 = k then some p.2 else dictLookup d k := by
  by_cases h : p.1 = k <;> simp [dictLookup, List.find?_cons, h]

lemma dictLookup_eq_none_of_any_false (d : Dict) (k : String)
    (h : d.any (fun p => p.1 = k) = false) : dictLookup d k = none := by
  induction d with
  | nil => rfl
  | cons p d ih =>
    simp only [List.any_cons, Bool.or_eq_false_iff, decide_eq_false_iff_not] at h
    rw [dictLookup_cons, if_neg h.1]
    exact ih h.2

lemma dictLookup_eq_none_of_not_mem (d : Dict) (k : String)
    (h : ¬ k ∈ d.map (fun p => p.1)) : dictLookup d k = none := by
  apply dictLookup_eq_none_of_any_false
  simp only [List.any_eq_false, decide_eq_false_iff_not]
  intro p hp hpk
  exact h (List.mem_map.mpr ⟨p, hp, of_decide_eq_true hpk⟩)

lemma dictLookup_map_update (d : Dict) (k k' : String) (v : Value)
    (hk : k' ≠ k) :
    dictLookup (d.map (fun p => if p.1 = k then (k, v) else p)) k' =
      dictLookup d k' := by
  induction d with
  | nil => rfl
  | cons p d ih =>
    by_cases hp : p.1 = k
    · rw [List.map_cons, if_pos hp, dictLookup_cons, dictLookup_cons]
      rw [if_neg (fun h => hk h.symm), if_neg (fun h => hk (hp ▸ h).symm)]
      exact ih
    · rw [List.map_cons, if_neg hp, dictLookup_cons, dictLookup_cons]
      by_cases hp' : p.1 = k'
      · rw [if_pos hp', if_pos hp']
      · rw [if_neg hp', if_neg hp']
        exact ih

lemma dictLookup_map_update_self (d : Dict) (k : String) (v : Value)
    (h : d.any (fun p => p.1 = k) = true) :
    dictLookup (d.map (fun p => if p.1 = k then (k, v) else p)) k = some v := by
  induction d with
  | nil => simp at h
  | cons p d ih =>
    by_cases hp : p.1 = k
    · rw [List.map_cons, if_pos hp, dictLookup_cons, if_pos rfl]
    · rw [List.map_cons, if_neg hp, dictLookup_cons, if_neg hp]
      apply ih
      simpa [List.any_cons, hp] using h

lemma dictLookup_append_single (d : Dict) (k k' : String) (v : Value) :
    dictLookup (d ++ [(k, v)]) k' =
      match dictLookup d k' with
      | some w => some w
      | none => if k = k' then some v else none := by
  induction d with
  | nil =>
    show dictLookup [(k, v)] k' = _
    rw [dictLookup_cons]
    rfl
  | cons p d ih =>
    rw [List.cons_append, dictLookup_cons, dictLookup_cons]
    by_cases hp : p.1 = k'
    · rw [if_pos hp, if_pos hp]
    · rw [if_neg hp, if_neg hp, ih]

lemma dictLookup_dictInsert (d : Dict) (k k' : String) (v : Value) :
    dictLookup (dictInsert d k v) k' =
      if k = k' then some v else dictLookup d k' := by
  unfold dictInsert
  by_cases hany : d.any (fun p => p.1 = k) = true
  · rw [if_pos hany]
    by_cases hk : k = k'
    · rw [if_pos hk, ← hk, dictLookup_map_update_self d k v hany]
    · rw [if_neg hk, dictLookup_map_update d k k' v (fun h => hk h.symm)]
  · rw [if_neg hany, dictLookup_append_single]
    have hnone := dictLookup_eq_none_of_any_false d k
      (Bool.eq_false_iff.mpr hany)
    by_cases hk : k = k'
    · rw [if_pos hk, ← hk, hnone, if_pos rfl]
    · cases hl : dictLookup d k' <;> simp [hk]

lemma dictLookup_dictMerge (e : Dict) (d : Dict) (k : String)
    (he : (e.map (fun p => p.1)).Nodup) :
    dictLookup (dictMerge d e) k =
      match dictLookup e k with
      | some v => some v
      | none => dictLookup d k := by
  induction e generalizing d with
  | nil =>
    show dictLookup d k = _
    rfl
  | cons p e ih =>
    rw [List.map_cons, List.nodup_cons] at he
    show dictLookup (dictMerge (dictInsert d p.1 p.2) e) k = _
    rw [ih _ he.2, dictLookup_cons, dictLookup_dictInsert]
    by_cases hk : p.1 = k
    · have he' : dictLookup e k = none :=
        dictLookup_eq_none_of_not_mem e k (hk ▸ he.1)
      simp [he', hk]
    · cases hl : dictLookup e k <;> simp [hk]

lemma map_fst_zip_sublist (l : List String) (vs : List Value) :
    ((l.zip vs).map (fun p => p.1)).Sublist l := by
  induction l generalizing vs with
  | nil => simp
  | cons a l ih =>
    cases vs with
    | nil => simp
    | cons v vs => simpa using (ih vs).cons₂ a

lemma defaultKwargs_keys_sublist (f : Func) :
    ((defaultKwargs f).map (fun p => p.1)).Sublist (f.params.map (fun p => p.1)) := by
  unfold defaultKwargs
  induction f.params with
  | nil => simp
  | cons p ps ih =>
    cases h : p.2 with
    | none =>
      rw [List.filterMap_cons, h, List.map_cons]
      exact ih.cons p.1
    | some v =>
      rw [List.filterMap_cons, h]
      simpa using ih.cons₂ p.1

/-! ## Theorems for the claims -/

/-- C2: the bound argument set `all_kwargs` maps positional arguments to
parameter names in declaration order (the annotation keys are in
declaration order, hypothesis `hann`) and resolves same-named conflicts
with keyword arguments winning over positional arguments and positional
arguments winning over declared defaults (src/torch_helper.py:66-69). -/
theorem allKwargs_precedence (f : Func) (args : List Value) (kwargs : Dict)
    (name : String)
    (hkw : (kwargs.map (fun p => p.1)).Nodup)
    (hp : (f.params.map (fun p => p.1)).Nodup)
    (hann : f.annotations.map (fun p => p.1) = f.params.map (fun p => p.1)) :
    dictLookup (allKwargs f args kwargs) name =
      match dictLookup kwargs name with
      | some v => some v
      | none =>
        match dictLookup
            (((f.params.map (fun p => p.1)).take args.length).zip args) name with
        | some v => some v
        | none => dictLookup (defaultKwargs f) name := by
  have hA : argsWithKeys f args =
      ((f.params.map (fun p => p.1)).take args.length).zip args := by
    unfold argsWithKeys
    rw [hann]
  have hAnodup : ((argsWithKeys f args).map (fun p => p.1)).Nodup := by
    rw [hA]
    exact List.Nodup.sublist
      ((map_fst_zip_sublist _ _).trans (List.take_sublist _ _)) hp
  have hDnodup : ((defaultKwargs f).map (fun p => p.1)).Nodup :=
    List.Nodup.sublist (defaultKwargs_keys_sublist f) hp
  unfold allKwargs
  rw [dictLookup_dictMerge kwargs _ name hkw,
    dictLookup_dictMerge (argsWithKeys f args) _ name hAnodup,
    dictLookup_dictMerge (defaultKwargs f) [] name hDnodup, hA]
  cases dictLookup kwargs name <;>
    cases dictLookup
      (((f.params.map (fun p => p.1)).take args.length).zip args) name <;>
    cases dictLookup (defaultKwargs f) name <;> rfl

/-- Witness for C2 on the `flip` example: `sign` is supplied both by
default and by keyword, `a` positionally; the keyword wins for `sign` and
the positional value is found for `a`. -/
theorem allKwargs_precedence_witness :
    ([("sign", Value.str "negative")].map
      (fun p => p.1) : List String).Nodup ∧
    (flipFunc.params.map (fun p => p.1)).Nodup ∧
    flipFunc.annotations.map (fun p => p.1) = flipFunc.params.map (fun p => p.1) ∧
    dictLookup (allKwargs flipFunc [.num 2] [("sign", .str "negative")]) "sign" =
      (match dictLookup [("sign", Value.str "negative")] "sign" with
        | some v => some v
        | none =>
          match dictLookup
              (((flipFunc.params.map (fun p => p.1)).take
                [Value.num 2].length).zip [Value.num 2]) "sign" with
          | some v => some v
          | none => dictLookup (defaultKwargs flipFunc) "sign") :=
  ⟨by decide, by decide, by decide,
    allKwargs_precedence flipFunc [.num 2] [("sign", .str "negative")] "sign"
      (by decide) (by decide) (by decide)⟩

/-- C4: for every differentiation primitive `P`, every complex-valued
output `f` and non-complex input `x`, `grad` raises the `AssertionError` of
src/torch_helper.py:101 and that error propagates to the caller.  The
conclusion holds for all `P`, so the result does not depend on the
primitive: the primitive is not invoked. -/
theorem grad_complex_requires_complex_input (P : AutogradPrim) (f x : GTensor)
    (cg : Bool) (hf : f.isComplex = true) (hx : x.isComplex = false) :
    grad P f x cg = .error (.assertionError gradComplexMsg) := by
  simp [grad, hf, hx]

/-- Witness for C4 at a concrete complex output and real input. -/
theorem grad_complex_requires_complex_input_witness :
    (⟨0, 1, true⟩ : GTensor).isComplex = true ∧
    (⟨2, 0, false⟩ : GTensor).isComplex = false ∧
    grad probePrim ⟨0, 1, true⟩ ⟨2, 0, false⟩ true =
      .error (.assertionError gradComplexMsg) :=
  ⟨rfl, rfl, grad_complex_requires_complex_input probePrim _ _ true rfl rfl⟩

/-- C5: for a complex output `f` with complex input `x`, `grad` returns the
conjugate of the primitive's first result invoked with gradient-output seed
`1+0i` and the given `create_graph` flag; for a real output `g`, `grad`
returns the primitive's first result directly, with no seed override and no
conjugation (src/torch_helper.py:100-106). -/
theorem grad_complex_and_real_paths (P : AutogradPrim) (f x g y : GTensor)
    (cg : Bool) (hf : f.isComplex = true) (hx : x.isComplex = true)
    (hg : g.isComplex = false) :
    grad P f x cg = .ok ((P.agrad f x (some complexSeed) cg)).conj ∧
    grad P g y cg = .ok (P.agrad g y none cg) := by
  constructor <;> simp [grad, hf, hx, hg]

/-- Witness for C5 at concrete complex and real outputs. -/
theorem grad_complex_and_real_paths_witness :
    (⟨0, 1, true⟩ : GTensor).isComplex = true ∧
    (⟨2, 3, true⟩ : GTensor).isComplex = true ∧
    (⟨5, 0, false⟩ : GTensor).isComplex = false ∧
    (grad probePrim ⟨0, 1, true⟩ ⟨2, 3, true⟩ true =
        .ok ((probePrim.agrad ⟨0, 1, true⟩ ⟨2, 3, true⟩ (some complexSeed) true)).conj ∧
      grad probePrim ⟨5, 0, false⟩ ⟨2, 3, true⟩ true =
        .ok (probePrim.agrad ⟨5, 0, false⟩ ⟨2, 3, true⟩ none true)) :=
  ⟨rfl, rfl, rfl,
    grad_complex_and_real_paths probePrim ⟨0, 1, true⟩ ⟨2, 3, true⟩ ⟨5, 0, false⟩
      ⟨2, 3, true⟩ true rfl rfl rfl⟩

/-- C6: `nth_grad` is the `n`-fold application of the step
`out := grad(out, x)` starting from `f` (src/torch_helper.py:115-119); in
particular `nth_grad f x 0 = f` and `nth_grad f x 2 = grad(grad(f,x),x)`.
Exception propagation of `grad` is carried by the `Except` bind. -/
theorem nth_grad_iterates (P : AutogradPrim) (f x : GTensor) (n : Nat) :
    nth_grad P f x n =
      (fun o => o.bind (fun out => grad P out x true))^[n] (Except.ok f) ∧
    nth_grad P f x 0 = .ok f ∧
    nth_grad P f x 2 = (grad P f x true).bind (fun g => grad P g x true) := by
  refine ⟨?_, rfl, rfl⟩
  induction n with
  | zero => rfl
  | succ n ih =>
    rw [Function.iterate_succ_apply']
    show (nth_grad P f x n).bind (fun out => grad P out x true) = _
    rw [ih]

/-- C7: a value that is already a tensor is only re-cast to the requested
dtype — the `requires_grad` option `rg` does not occur in the result, whose
tracking flag is `t.requiresGrad` unless cleared by `detach`; a non-tensor
value is built fresh and `requires_grad` is applied exactly in that path
(src/torch_helper.py:46-55). -/
theorem to_torch_cast_vs_fresh (t : Tensor) (n : Int) (d : Dtype) (rg det : Bool) :
    to_torch (.tensor t) d rg det =
      .ok { data := t.data, dtype := d,
            requiresGrad := if det then false else t.requiresGrad } ∧
    to_torch (.num n) d rg det =
      .ok { data := n, dtype := d, requiresGrad := if det then false else rg } := by
  constructor <;> cases det <;> rfl

/-- C8: whenever `to_torch` with `detach` set returns a tensor, that tensor
has gradient tracking disabled, on both the re-cast path and the
fresh-construction path (src/torch_helper.py:52-53). -/
theorem to_torch_detach_clears_tracking (v : Value) (d : Dtype) (rg : Bool)
    (t : Tensor) (h : to_torch v d rg true = .ok t) : t.requiresGrad = false := by
  cases v with
  | tensor t0 =>
    have e : to_torch (.tensor t0) d rg true =
        .ok { data := t0.data, dtype := d, requiresGrad := false } := rfl
    rw [e] at h
    injection h with h2
    rw [← h2]
  | num n =>
    have e : to_torch (.num n) d rg true =
        .ok { data := n, dtype := d, requiresGrad := false } := rfl
    rw [e] at h
    injection h with h2
    rw [← h2]
  | str s =>
    exact absurd h (by simp [to_torch, convert, torchTensor])

/-- Witness for C8: a tracked input tensor comes back untracked. -/
theorem to_torch_detach_clears_tracking_witness :
    to_torch (.tensor ⟨4, .DoubleTensor, true⟩) .FloatTensor true true =
      .ok ⟨4, .FloatTensor, false⟩ ∧
    (⟨4, .FloatTensor, false⟩ : Tensor).requiresGrad = false :=
  ⟨by decide,
    to_torch_detach_clears_tracking (.tensor ⟨4, .DoubleTensor, true⟩) .FloatTensor
      true ⟨4, .FloatTensor, false⟩ (by decide)⟩

/-- C9: when the set of declared parameter names differs from the set of
annotation keys, every invocation of the adapted function returns the
`AssertionError` of src/torch_helper.py:65 with no warnings or prints.  The
conclusion holds for every `f` with mismatched key sets — in particular for
every body — so the assertion is not caught by the fallback handler and the
target function is never invoked. -/
theorem torch_wrap_unannotated_asserts (f : Func) (args : List Value)
    (kwargs : Dict)
    (h : sameKeySet (f.params.map (fun p => p.1))
      (f.annotations.map (fun p => p.1)) = false) :
    torch_wrap f args kwargs = (.error (.assertionError allAnnotatedMsg), []) := by
  simp [torch_wrap, h]

/-- A function with a declared parameter that carries no annotation. -/
def unannotatedFunc : Func where
  params := [("a", none), ("b", none)]
  annotations := [("a", [.str "tensor"])]
  body := fun lookup =>
    match lookup "a" with
    | some v => .ok v
    | none => .error .typeError

/-- Witness for C9: the assertion fires on a concrete call. -/
theorem torch_wrap_unannotated_asserts_witness :
    sameKeySet (unannotatedFunc.params.map (fun p => p.1))
      (unannotatedFunc.annotations.map (fun p => p.1)) = false ∧
    torch_wrap unannotatedFunc [.num 1, .num 2] [] =
      (.error (.assertionError allAnnotatedMsg), []) :=
  ⟨by decide, torch_wrap_unannotated_asserts unannotatedFunc [.num 1, .num 2] []
    (by decide)⟩

/-- C1: whenever the `try` block (coercing the arguments and invoking the
target with the coerced argument set, `coerceAttempt`) raises any
exception, the adapter emits the parsing-failed warning, prints the
bound-argument set `all_kwargs`, and returns the result of invoking the
original function with the original positional and keyword arguments
unchanged (src/torch_helper.py:87-90).  `effs` are the warnings already
emitted inside the `try` block before the exception. -/
theorem torch_wrap_fallback_on_failure (f : Func) (args : List Value)
    (kwargs : Dict) (e : PyError) (effs : List Effect)
    (hkeys : sameKeySet (f.params.map (fun p => p.1))
      (f.annotations.map (fun p => p.1)) = true)
    (hfail : coerceAttempt f (allKwargs f args kwargs) = (.error e, effs)) :
    torch_wrap f args kwargs =
      (pyCall f args kwargs,
        effs ++ [.warnParsingFailed, .printDict (allKwargs f args kwargs)]) := by
  simp [torch_wrap, hkeys, hfail]

/-- Witness for C1: coercion of a string argument raises, and the adapter
falls back to the original call. -/
theorem torch_wrap_fallback_on_failure_witness :
    sameKeySet (flipFunc.params.map (fun p => p.1))
      (flipFunc.annotations.map (fun p => p.1)) = true ∧
    coerceAttempt flipFunc (allKwargs flipFunc [.str "oops"] []) =
      (.error .typeError, []) ∧
    torch_wrap flipFunc [.str "oops"] [] =
      (pyCall flipFunc [.str "oops"] [],
        [] ++ [.warnParsingFailed, .printDict (allKwargs flipFunc [.str "oops"] [])]) :=
  ⟨by decide, by decide,
    torch_wrap_fallback_on_failure flipFunc [.str "oops"] [] .typeError []
      (by decide) (by decide)⟩

/-- A function whose second parameter carries an unsupported annotation and
whose body returns the value bound to that second parameter. -/
def staleFunc : Func where
  params := [("a", none), ("b", none)]
  annotations := [("a", [.str "tensor"]), ("b", [.str "bogus"])]
  body := fun lookup =>
    match lookup "b" with
    | some v => .ok v
    | none => .error .typeError

/-- Counterexample to C3: on `staleFunc` called with `(7, 8)`, parameter
`b` carries the unsupported annotation `bogus`; the adapter warns, but no
`NameError` (nor any other error) is raised — the call succeeds, because
`torch_kwargs[b] = v` silently reuses the loop variable left over from the
previous iteration, the coerced value of `a`.  The returned value is the
coerced `a` (payload 7), not `b`s bound value 8. -/
theorem torch_wrap_unsupported_no_nameerror_counterexample :
    torch_wrap staleFunc [.num 7, .num 8] [] =
      (.ok (.tensor ⟨7, .FloatTensor, false⟩), [.warnUnsupported [.str "bogus"]]) := by
  decide

/-- C3 amended: when the parameter with the unsupported annotation is the
first one iterated (so no earlier iteration has assigned the loop variable
`v`), the adapter emits the unsupported-annotation warning and the
assignment `torch_kwargs[var_name] = v` raises a `NameError` downstream of
the warning; the `NameError` is then caught by the fallback handler, which
warns, prints the bound-argument set and invokes the original function with
the original arguments.  For any later parameter the previous iteration's
coerced value is silently reused instead (see the stale-value theorem). -/
theorem torch_wrap_unsupported_first_nameerror (f : Func) (args : List Value)
    (kwargs : Dict) (name : String) (ann : Annotation)
    (rest : List (String × Annotation))
    (hkeys : sameKeySet (f.params.map (fun p => p.1))
      (f.annotations.map (fun p => p.1)) = true)
    (hann : f.annotations = (name, ann) :: rest)
    (ht : hasTag ann "tensor" = false) (ha : hasTag ann "any" = false) :
    torch_wrap f args kwargs =
      (pyCall f args kwargs,
        [.warnUnsupported ann, .warnParsingFailed,
         .printDict (allKwargs f args kwargs)]) := by
  have hloop : coerceLoop (allKwargs f args kwargs) f.annotations none [] =
      (.error .nameError, [.warnUnsupported ann]) := by
    rw [hann]
    simp [coerceLoop, ht, ha]
  simp [torch_wrap, hkeys, coerceAttempt, hloop]

/-- A function whose single (first) parameter carries an unsupported
annotation. -/
def firstBogusFunc : Func where
  params := [("a", none)]
  annotations := [("a", [.str "bogus"])]
  body := fun lookup =>
    match lookup "a" with
    | some v => .ok v
    | none => .error .typeError

/-- Witness for the amended C3: first parameter unsupported, `NameError`
caught, fallback invokes the original call. -/
theorem torch_wrap_unsupported_first_nameerror_witness :
    sameKeySet (firstBogusFunc.params.map (fun p => p.1))
      (firstBogusFunc.annotations.map (fun p => p.1)) = true ∧
    firstBogusFunc.annotations = [("a", [.str "bogus"])] ∧
    hasTag [.str "bogus"] "tensor" = false ∧
    hasTag [.str "bogus"] "any" = false ∧
    torch_wrap firstBogusFunc [.num 5] [] =
      (pyCall firstBogusFunc [.num 5] [],
        [.warnUnsupported [.str "bogus"], .warnParsingFailed,
         .printDict (allKwargs firstBogusFunc [.num 5] [])]) :=
  ⟨by decide, rfl, by decide, by decide,
    torch_wrap_unsupported_first_nameerror firstBogusFunc [.num 5] [] "a"
      [.str "bogus"] [] (by decide) rfl (by decide) (by decide)⟩

/-- C10: for an adapted function of shape `[(n1, a1), (n2, a2)]` where `a1`
is a `tensor` annotation whose coercion of the bound value `v1` succeeds as
`t1`, and `a2` is unsupported (neither `tensor` nor `any`), the adapter
raises no error for `n2`: after the unsupported-annotation warning it
silently assigns `n2` the coerced value of the preceding parameter (the
stale loop variable, `tensor t1`) and invokes the target with that value
(src/torch_helper.py:72-86).  Should that call raise, the usual fallback
applies. -/
theorem torch_wrap_stale_value (f : Func) (n1 n2 : String) (a1 a2 : Annotation)
    (args : List Value) (kwargs : Dict) (v1 : Value) (t1 : Tensor)
    (hne : n1 ≠ n2)
    (hanns : f.annotations = [(n1, a1), (n2, a2)])
    (hkeys : sameKeySet (f.params.map (fun p => p.1)) [n1, n2] = true)
    (h1 : hasTag a1 "tensor" = true)
    (h2t : hasTag a2 "tensor" = false) (h2a : hasTag a2 "any" = false)
    (hb : dictLookup (allKwargs f args kwargs) n1 = some v1)
    (hc : to_torch v1 (annDtype a1) (hasTag a1 "requires_grad")
      (hasTag a1 "detach") = .ok t1) :
    torch_wrap f args kwargs =
      match pyCall f [] [(n1, .tensor t1), (n2, .tensor t1)] with
      | .ok r => (.ok r, [.warnUnsupported a2])
      | .error _ =>
        (pyCall f args kwargs,
          [.warnUnsupported a2, .warnParsingFailed,
           .printDict (allKwargs f args kwargs)]) := by
  have hloop : coerceLoop (allKwargs f args kwargs) f.annotations none [] =
      (.ok [(n1, .tensor t1), (n2, .tensor t1)], [.warnUnsupported a2]) := by
    rw [hanns]
    simp [coerceLoop, h1, h2t, h2a, hb, hc, dictInsert, hne]
  have hattempt : coerceAttempt f (allKwargs f args kwargs) =
      (pyCall f [] [(n1, .tensor t1), (n2, .tensor t1)], [.warnUnsupported a2]) := by
    simp [coerceAttempt, hloop]
  rw [torch_wrap]
  rw [if_pos (by rw [hanns]; exact hkeys)]
  simp only [hattempt]
  cases pyCall f [] [(n1, .tensor t1), (n2, .tensor t1)] <;> rfl

/-- Witness for C10: `staleFunc (7, 8)` invokes the body with `b` bound to
the coerced value of `a`, and the body returns it. -/
theorem torch_wrap_stale_value_witness :
    ("a" : String) ≠ "b" ∧
    staleFunc.annotations = [("a", [.str "tensor"]), ("b", [.str "bogus"])] ∧
    sameKeySet (staleFunc.params.map (fun p => p.1)) ["a", "b"] = true ∧
    hasTag [.str "tensor"] "tensor" = true ∧
    hasTag [.str "bogus"] "tensor" = false ∧
    hasTag [.str "bogus"] "any" = false ∧
    dictLookup (allKwargs staleFunc [.num 7, .num 8] []) "a" = some (.num 7) ∧
    to_torch (.num 7) (annDtype [.str "tensor"])
      (hasTag [.str "tensor"] "requires_grad") (hasTag [.str "tensor"] "detach") =
      .ok ⟨7, .FloatTensor, false⟩ ∧
    torch_wrap staleFunc [.num 7, .num 8] [] =
      (match pyCall staleFunc []
          [("a", .tensor ⟨7, .FloatTensor, false⟩),
           ("b", .tensor ⟨7, .FloatTensor, false⟩)] with
        | .ok r => (.ok r, [.warnUnsupported [.str "bogus"]])
        | .error _ =>
          (pyCall staleFunc [.num 7, .num 8] [],
            [.warnUnsupported [.str "bogus"], .warnParsingFailed,
             .printDict (allKwargs staleFunc [.num 7, .num 8] [])])) :=
  ⟨by decide, rfl, by decide, by decide, by decide, by decide, by decide, by decide,
    torch_wrap_stale_value staleFunc "a" "b" [.str "tensor"] [.str "bogus"]
      [.num 7, .num 8] [] (.num 7) ⟨7, .FloatTensor, false⟩ (by decide) rfl
      (by decide) (by decide) (by decide) (by decide) (by decide) (by decide)⟩
